import Mathlib

/-!
Verification development for the chole-backend cloud functions
(src/functions/index.js): a shallow embedding of the askFollowup
callable handler and the healthCheck endpoint, with theorems about
their request validation, prompt assembly, provider invocation,
interaction logging and error translation.
-/

namespace Chole

/-- One bullet point of the article context: an object with a text field. -/
structure Bullet where
  text : String
deriving DecidableEq, Repr

/-- The articleContext object destructured by askFollowup. Every field may be
absent (JavaScript undefined), modelled by Option. -/
structure ArticleContext where
  headline : Option String
  source : Option String
  summary : Option String
  bullets : Option (List Bullet)
deriving DecidableEq, Repr

/-- The data payload of an askFollowup call: articleId, question and
articleContext, each possibly absent. -/
structure FollowupRequest where
  articleId : Option String
  question : Option String
  articleContext : Option ArticleContext
deriving DecidableEq, Repr

/-- The auth part of the callable context: a uid string. An absent auth
context is modelled as none at the use site. -/
structure AuthInfo where
  uid : String
deriving DecidableEq, Repr

/-- The error codes used by the handler: invalid-argument and internal. -/
inductive ErrorCode
  | invalidArgument
  | internal
deriving DecidableEq, Repr

/-- A functions.https.HttpsError: a code and a message. -/
structure HttpsError where
  code : ErrorCode
  message : String
deriving DecidableEq, Repr

/-- One chat message of the provider request. -/
structure ChatMessage where
  role : String
  content : String
deriving DecidableEq, Repr

/-- The argument object of anthropic.messages.create. -/
structure ProviderRequest where
  model : String
  maxTokens : Nat
  messages : List ChatMessage
  system : String
deriving DecidableEq, Repr

/-- One content block of the provider response. -/
structure ContentBlock where
  text : String
deriving DecidableEq, Repr

/-- The provider response: an ordered list of content blocks. -/
structure ProviderResponse where
  content : List ContentBlock
deriving DecidableEq, Repr

/-- The server-assigned timestamp sentinel written by the log call
(admin.firestore.FieldValue.serverTimestamp). -/
inductive ServerTimestamp
  | serverAssigned
deriving DecidableEq, Repr

/-- The document appended to the ai_interactions collection. -/
structure InteractionRecord where
  articleId : Option String
  question : String
  responseLength : Nat
  timestamp : ServerTimestamp
  userId : String
deriving DecidableEq, Repr

/-- The success payload returned to the caller. -/
structure FollowupResponse where
  success : Bool
  response : String
deriving DecidableEq, Repr

/-- A runtime error that is not an HttpsError, such as the TypeError raised
by reading a property of undefined, or a provider transport error. -/
inductive JsError
  | typeError
  | providerFailure
deriving DecidableEq, Repr

/-- The full observable outcome of one askFollowup invocation: the value
returned or error thrown, the provider requests issued, and the interaction
records written to the store. -/
structure HandlerOutcome where
  result : Except HttpsError FollowupResponse
  providerCalls : List ProviderRequest
  records : List InteractionRecord
deriving Repr

/-- String.prototype.trim of the JavaScript runtime: the string with leading
and trailing whitespace removed, computed structurally over the character
list. -/
def jsTrim (s : String) : String :=
  String.mk (((s.toList.dropWhile Char.isWhitespace).reverse.dropWhile Char.isWhitespace).reverse)

/-- Rendering of a possibly absent string in a template literal: JavaScript
interpolates undefined as the text "undefined". -/
def jsToString : Option String → String
  | none => "undefined"
  | some s => s

/-- The fixed system prompt of askFollowup, byte for byte as in the source
(including the trailing space on the first line). -/
def systemPrompt : String :=
  "You are a senior mining industry analyst assistant for Chole, a mining news platform. \nYou provide expert-level analysis and answers about mining industry news.\n\nWhen answering:\n- Be specific with numbers, companies, and technical details\n- Provide industry context and implications\n- Keep responses concise but informative (2-4 paragraphs max)\n- If you don\x27t know something, say so rather than speculating\n- Reference specific data points from the article when relevant"

/-- The bullets portion of the user prompt:
articleContext.bullets?.map(b => "- " + b.text).join("\n") with the
falsy-fallback "No bullet points available" (taken both when bullets is
absent and when the joined string is empty, i.e. the list is empty). -/
def bulletsSection : Option (List Bullet) → String
  | none => "No bullet points available"
  | some bs =>
    let joined := String.intercalate "\n" (bs.map (fun b => "- " ++ b.text))
    if joined.isEmpty then "No bullet points available" else joined

/-- The closing instruction sentence of the user prompt. -/
def closingSentence : String :=
  "\n\nPlease provide a helpful, expert-level response to this question about the mining news article."

/-- The user prompt template literal. Reading a field of an absent
articleContext throws a TypeError, modelled as Except.error. -/
def buildUserPrompt : Option ArticleContext → String → Except JsError String
  | none, _ => .error .typeError
  | some c, question => .ok
      ("Article Context:\nHeadline: " ++ jsToString c.headline ++
       "\nSource: " ++ jsToString c.source ++
       "\nSummary: " ++ jsToString c.summary ++
       "\nKey Points:\n" ++ bulletsSection c.bullets ++
       "\n\nUser Question: " ++ question ++ closingSentence)

/-- The fixed model identifier passed to the provider. -/
def modelId : String := "claude-sonnet-4-20250514"

/-- The provider request built by askFollowup for a given user prompt. -/
def providerRequestFor (userPrompt : String) : ProviderRequest :=
  { model := modelId
    maxTokens := 1024
    messages := [{ role := "user", content := userPrompt }]
    system := systemPrompt }

/-- The userId written to the interaction record:
context.auth?.uid with the falsy-fallback "anonymous" (taken when auth is
absent and also when uid is the empty string). -/
def resolveUserId : Option AuthInfo → String
  | none => "anonymous"
  | some a => if a.uid.isEmpty then "anonymous" else a.uid

/-- The generic error produced by the catch-all handler. -/
def internalError : HttpsError :=
  { code := .internal, message := "Failed to generate response" }

/-- The validation error for an absent or whitespace-only question. -/
def requiredError : HttpsError :=
  { code := .invalidArgument, message := "Question is required" }

/-- The validation error for a question longer than 500 characters. -/
def tooLongError : HttpsError :=
  { code := .invalidArgument, message := "Question too long (max 500 characters)" }

/-- The askFollowup handler. The provider call and the log write are the two
external effects; the provider is passed as an oracle from requests to
results, and the log write outcome as a boolean. A failed log write, a
provider failure, a TypeError in prompt build and a missing first content
block are all caught by the catch-all and surfaced as internalError;
validation HttpsErrors are rethrown unchanged. -/
def askFollowup (provider : ProviderRequest → Except JsError ProviderResponse)
    (logWriteOk : Bool) (data : FollowupRequest) (auth : Option AuthInfo) :
    HandlerOutcome :=
  match data.question with
  | none =>
    { result := .error requiredError
      providerCalls := []
      records := [] }
  | some q =>
    if (jsTrim q).isEmpty then
      { result := .error requiredError
        providerCalls := []
        records := [] }
    else if q.length > 500 then
      { result := .error tooLongError
        providerCalls := []
        records := [] }
    else
      match buildUserPrompt data.articleContext q with
      | .error _ =>
        { result := .error internalError, providerCalls := [], records := [] }
      | .ok userPrompt =>
        let preq := providerRequestFor userPrompt
        match provider preq with
        | .error _ =>
          { result := .error internalError, providerCalls := [preq], records := [] }
        | .ok msg =>
          match msg.content with
          | [] =>
            { result := .error internalError, providerCalls := [preq], records := [] }
          | blk :: _ =>
            let response := blk.text
            let record : InteractionRecord :=
              { articleId := data.articleId
                question := q
                responseLength := response.length
                timestamp := .serverAssigned
                userId := resolveUserId auth }
            if logWriteOk then
              { result := .ok { success := true, response := response }
                providerCalls := [preq]
                records := [record] }
            else
              { result := .error internalError, providerCalls := [preq], records := [] }

/-- A point in time as exposed by the JavaScript Date object, already split
into the calendar components that toISOString renders. -/
structure JsDate where
  year : Nat
  month : Nat
  day : Nat
  hour : Nat
  minute : Nat
  second : Nat
  millisecond : Nat
deriving DecidableEq, Repr

/-- The two decimal digits of a number below 100, as characters. -/
def pad2chars (n : Nat) : List Char :=
  [Nat.digitChar (n / 10 % 10), Nat.digitChar (n % 10)]

/-- The three decimal digits of a number below 1000, as characters. -/
def pad3chars (n : Nat) : List Char :=
  [Nat.digitChar (n / 100 % 10), Nat.digitChar (n / 10 % 10), Nat.digitChar (n % 10)]

/-- The four decimal digits of a number below 10000, as characters. -/
def pad4chars (n : Nat) : List Char :=
  [Nat.digitChar (n / 1000 % 10), Nat.digitChar (n / 100 % 10),
   Nat.digitChar (n / 10 % 10), Nat.digitChar (n % 10)]

/-- Date.prototype.toISOString of the JavaScript runtime, for years in the
four-digit range: the format YYYY-MM-DDTHH:mm:ss.sssZ of ECMA-262. -/
def toISOString (d : JsDate) : String :=
  String.mk (pad4chars d.year ++ '-' :: pad2chars d.month ++ '-' :: pad2chars d.day ++
    'T' :: pad2chars d.hour ++ ':' :: pad2chars d.minute ++ ':' :: pad2chars d.second ++
    '.' :: pad3chars d.millisecond ++ ['Z'])

/-- The payload returned by healthCheck. -/
structure HealthPayload where
  status : String
  timestamp : String
deriving DecidableEq, Repr

/-- The healthCheck handler: ignores the request (of any type) and returns
the fixed-shape payload with status "ok" and the current time as an ISO
string. The current time is passed in as the clock value. -/
def healthCheck {α : Type} (_req : α) (now : JsDate) : HealthPayload :=
  { status := "ok", timestamp := toISOString now }

/-- The numeric value of a list of decimal digit characters. -/
def charsToNat (cs : List Char) : Nat :=
  cs.foldl (fun acc c => acc * 10 + (c.toNat - 48)) 0

/-- Recogniser for a valid ISO-8601 UTC date-time string of the form
YYYY-MM-DDTHH:mm:ss.sssZ: 24 characters, digits and separators in place,
and the month, day, hour, minute and second fields within range. -/
def isISO8601 (s : String) : Bool :=
  match s.toList with
  | [y1, y2, y3, y4, p1, o1, o2, p2, a1, a2, p3, h1, h2, p4, n1, n2, p5, e1, e2, p6, f1, f2, f3, p7] =>
    [y1, y2, y3, y4, o1, o2, a1, a2, h1, h2, n1, n2, e1, e2, f1, f2, f3].all Char.isDigit &&
    p1 == '-' && p2 == '-' && p3 == 'T' && p4 == ':' && p5 == ':' && p6 == '.' && p7 == 'Z' &&
    1 ≤ charsToNat [o1, o2] && charsToNat [o1, o2] ≤ 12 &&
    1 ≤ charsToNat [a1, a2] && charsToNat [a1, a2] ≤ 31 &&
    charsToNat [h1, h2] ≤ 23 && charsToNat [n1, n2] ≤ 59 && charsToNat [e1, e2] ≤ 59
  | _ => false

/-! Concrete fixtures for witnesses and counterexamples. -/

/-- A sample article context with two bullets, taken from the testable
properties of the handler. -/
def sampleContext : ArticleContext :=
  { headline := some "Mine expansion approved"
    source := some "Reuters"
    summary := some "Production set to rise."
    bullets := some [{ text := "Production up 12%" }, { text := "New CEO appointed" }] }

/-- A sample request that passes validation. -/
def sampleRequest : FollowupRequest :=
  { articleId := some "article-1"
    question := some "What changed?"
    articleContext := some sampleContext }

/-- The user prompt the handler composes for sampleRequest. -/
def samplePrompt : String :=
  "Article Context:\nHeadline: Mine expansion approved\nSource: Reuters\nSummary: Production set to rise.\nKey Points:\n- Production up 12%\n- New CEO appointed\n\nUser Question: What changed?" ++ closingSentence

/-- A provider oracle that answers every request with one content block
reading "Answer text". -/
def answerProvider : ProviderRequest → Except JsError ProviderResponse :=
  fun _ => .ok { content := [{ text := "Answer text" }] }

/-- A provider oracle that fails every request with a transport error. -/
def failingProvider : ProviderRequest → Except JsError ProviderResponse :=
  fun _ => .error .providerFailure

/-- A question of 501 characters whose trimmed length is 1: the character a
followed by 500 spaces. -/
def paddedQuestion : String := String.pushn "a" ' ' 500

/-- An article context with every field absent. -/
def emptyContext : ArticleContext :=
  { headline := none, source := none, summary := none, bullets := none }

/-- A validation-passing request whose articleContext has every field
absent. -/
def emptyCtxRequest : FollowupRequest :=
  { articleId := none, question := some "Why?", articleContext := some emptyContext }

/-- The user prompt the handler composes for emptyCtxRequest. -/
def emptyCtxPrompt : String :=
  "Article Context:\nHeadline: undefined\nSource: undefined\nSummary: undefined\nKey Points:\nNo bullet points available\n\nUser Question: Why?" ++
    closingSentence

/-! Theorems about the claims. -/

set_option maxRecDepth 8000

/-- Claim C2: validation fails fast and in order: a question that is absent
or empty after trimming whitespace raises INVALID_ARGUMENT "Question is
required"; otherwise a question longer than 500 characters raises
INVALID_ARGUMENT "Question too long (max 500 characters)"; in both cases no
provider call is made and no InteractionRecord is written. -/
theorem askFollowup_validation_order
    (provider : ProviderRequest → Except JsError ProviderResponse)
    (logWriteOk : Bool) (data : FollowupRequest) (auth : Option AuthInfo) :
    ((data.question = none ∨ ∃ q, data.question = some q ∧ (jsTrim q).isEmpty) →
      askFollowup provider logWriteOk data auth =
        { result := .error requiredError, providerCalls := [], records := [] }) ∧
    (∀ q, data.question = some q → ¬ (jsTrim q).isEmpty → q.length > 500 →
      askFollowup provider logWriteOk data auth =
        { result := .error tooLongError, providerCalls := [], records := [] }) := by
  constructor
  · rintro (hq | ⟨q, hq, ht⟩)
    · simp [askFollowup, hq]
    · simp [askFollowup, hq, ht]
  · intro q hq ht hlen
    simp [askFollowup, hq, ht, hlen]

/-- Witness for C2 at concrete inputs: a whitespace-only question is
rejected as required. -/
theorem askFollowup_validation_order_witness :
    askFollowup answerProvider true
        { articleId := none, question := some " ", articleContext := none } none =
      { result := .error requiredError, providerCalls := [], records := [] } :=
  (askFollowup_validation_order answerProvider true
      { articleId := none, question := some " ", articleContext := none } none).1
    (Or.inr ⟨" ", rfl, by decide⟩)

/-- Claim C3: every error askFollowup raises is either one of the two
validation errors, propagated unchanged, or the generic INTERNAL error with
the fixed message "Failed to generate response" (any failure in prompt
build, provider call, content extraction or log write is caught and
re-raised as internalError); moreover whenever an error is raised no
InteractionRecord is written, so repeated failed calls accumulate no
records. -/
theorem askFollowup_error_translation
    (provider : ProviderRequest → Except JsError ProviderResponse)
    (logWriteOk : Bool) (data : FollowupRequest) (auth : Option AuthInfo) (e : HttpsError)
    (he : (askFollowup provider logWriteOk data auth).result = .error e) :
    (e = requiredError ∨ e = tooLongError ∨ e = internalError) ∧
    (askFollowup provider logWriteOk data auth).records = [] := by
  rcases hq : data.question with _ | q
  · simp [askFollowup, hq] at he ⊢
    exact Or.inl he.symm
  · by_cases ht : (jsTrim q).isEmpty
    · simp [askFollowup, hq, ht] at he ⊢
      exact Or.inl he.symm
    · by_cases hlen : q.length > 500
      · simp [askFollowup, hq, ht, hlen] at he ⊢
        exact Or.inr (Or.inl he.symm)
      · rcases hb : buildUserPrompt data.articleContext q with je | s
        · simp [askFollowup, hq, ht, hlen, hb] at he ⊢
          exact Or.inr (Or.inr he.symm)
        · rcases hp : provider (providerRequestFor s) with je | resp
          · simp [askFollowup, hq, ht, hlen, hb, hp] at he ⊢
            exact Or.inr (Or.inr he.symm)
          · rcases hc : resp.content with _ | ⟨blk, rest⟩
            · simp [askFollowup, hq, ht, hlen, hb, hp, hc] at he ⊢
              exact Or.inr (Or.inr he.symm)
            · cases logWriteOk
              · simp [askFollowup, hq, ht, hlen, hb, hp, hc] at he ⊢
                exact Or.inr (Or.inr he.symm)
              · simp [askFollowup, hq, ht, hlen, hb, hp, hc] at he

/-- Witness for C3 at concrete inputs: a failed provider call on a valid
request yields the internal error and writes no record. -/
theorem askFollowup_error_translation_witness :
    (askFollowup failingProvider true sampleRequest none).result = .error internalError ∧
    ((internalError = requiredError ∨ internalError = tooLongError ∨
        internalError = internalError) ∧
      (askFollowup failingProvider true sampleRequest none).records = []) :=
  ⟨rfl, askFollowup_error_translation failingProvider true sampleRequest none internalError rfl⟩

/-- Helper: when the question is present, has a nonempty trim and is at most
500 characters long, the handler gets past validation, so its result is
either the generic internal error or a success value. -/
theorem askFollowup_past_validation
    (provider : ProviderRequest → Except JsError ProviderResponse)
    (logWriteOk : Bool) (data : FollowupRequest) (auth : Option AuthInfo) (q : String)
    (hq : data.question = some q) (ht : ¬ (jsTrim q).isEmpty) (hlen : ¬ q.length > 500) :
    (askFollowup provider logWriteOk data auth).result = .error internalError ∨
    ∃ r, (askFollowup provider logWriteOk data auth).result = .ok r := by
  rcases hb : buildUserPrompt data.articleContext q with je | s
  · simp [askFollowup, hq, ht, hlen, hb]
  · rcases hp : provider (providerRequestFor s) with je | resp
    · simp [askFollowup, hq, ht, hlen, hb, hp]
    · rcases hc : resp.content with _ | ⟨blk, rest⟩
      · simp [askFollowup, hq, ht, hlen, hb, hp, hc]
      · cases logWriteOk <;> simp [askFollowup, hq, ht, hlen, hb, hp, hc]

/-- Counterexample for C7: the question made of the character a followed by
500 spaces has trimmed length 1, within 1..500, yet validation rejects it as
too long, because the 500-character bound is checked on the untrimmed
string. -/
theorem question_trim_bound_cex :
    1 ≤ (jsTrim paddedQuestion).length ∧ (jsTrim paddedQuestion).length ≤ 500 ∧
    (askFollowup answerProvider true
        { articleId := none, question := some paddedQuestion,
          articleContext := some sampleContext } none).result = .error tooLongError :=
  ⟨by decide, by decide, rfl⟩

/-- Claim C7 as amended: the question bound is measured on the untrimmed
string: for every request whose question has a nonempty trim and untrimmed
length at most 500 characters, neither validation error is raised. -/
theorem question_validation_passes
    (provider : ProviderRequest → Except JsError ProviderResponse)
    (logWriteOk : Bool) (data : FollowupRequest) (auth : Option AuthInfo) (q : String)
    (hq : data.question = some q) (ht : ¬ (jsTrim q).isEmpty) (hlen : q.length ≤ 500) :
    (askFollowup provider logWriteOk data auth).result ≠ .error requiredError ∧
    (askFollowup provider logWriteOk data auth).result ≠ .error tooLongError := by
  have h := askFollowup_past_validation provider logWriteOk data auth q hq ht (by omega)
  rcases h with h | ⟨r, h⟩ <;> rw [h] <;>
    exact ⟨by intro hc; simp [internalError, requiredError] at hc,
           by intro hc; simp [internalError, tooLongError] at hc⟩

/-- Witness for the amended C7 at a concrete input: the sample question
passes both validation checks. -/
theorem question_validation_passes_witness :
    (askFollowup answerProvider true sampleRequest none).result ≠ .error requiredError ∧
    (askFollowup answerProvider true sampleRequest none).result ≠ .error tooLongError :=
  question_validation_passes answerProvider true sampleRequest none "What changed?"
    rfl (by decide) (by decide)

/-- Helper: the full outcome of a run that passes validation, builds its
prompt and receives a provider response with a first content block; the
returned value and the written record depend only on the log write outcome. -/
theorem askFollowup_main_path
    (provider : ProviderRequest → Except JsError ProviderResponse)
    (logWriteOk : Bool) (data : FollowupRequest) (auth : Option AuthInfo)
    (q s : String) (resp : ProviderResponse) (blk : ContentBlock) (rest : List ContentBlock)
    (hq : data.question = some q) (ht : ¬ (jsTrim q).isEmpty) (hlen : ¬ q.length > 500)
    (hb : buildUserPrompt data.articleContext q = .ok s)
    (hp : provider (providerRequestFor s) = .ok resp)
    (hc : resp.content = blk :: rest) :
    askFollowup provider logWriteOk data auth =
      if logWriteOk then
        { result := .ok { success := true, response := blk.text }
          providerCalls := [providerRequestFor s]
          records := [{ articleId := data.articleId
                        question := q
                        responseLength := blk.text.length
                        timestamp := .serverAssigned
                        userId := resolveUserId auth }] }
      else
        { result := .error internalError
          providerCalls := [providerRequestFor s]
          records := [] } := by
  cases logWriteOk <;> simp [askFollowup, hq, ht, hlen, hb, hp, hc]

/-- Helper: once the prompt is built, the provider is called exactly once
with providerRequestFor of the built prompt, whatever it then returns. -/
theorem askFollowup_providerCalls
    (provider : ProviderRequest → Except JsError ProviderResponse)
    (logWriteOk : Bool) (data : FollowupRequest) (auth : Option AuthInfo) (q s : String)
    (hq : data.question = some q) (ht : ¬ (jsTrim q).isEmpty) (hlen : ¬ q.length > 500)
    (hb : buildUserPrompt data.articleContext q = .ok s) :
    (askFollowup provider logWriteOk data auth).providerCalls = [providerRequestFor s] := by
  rcases hp : provider (providerRequestFor s) with je | resp
  · simp [askFollowup, hq, ht, hlen, hb, hp]
  · rcases hc : resp.content with _ | ⟨blk, rest⟩ <;> cases logWriteOk <;>
      simp [askFollowup, hq, ht, hlen, hb, hp, hc]

/-- Counterexample for C1: with an auth context present whose uid is the
empty string, the written record's userId is "anonymous", not the auth
context's uid, because the source uses the falsy-fallback operator on
context.auth?.uid. -/
theorem success_record_userid_cex :
    (askFollowup answerProvider true sampleRequest (some { uid := "" })).result =
      .ok { success := true, response := "Answer text" } ∧
    (askFollowup answerProvider true sampleRequest (some { uid := "" })).records.map
        (fun r => r.userId) = ["anonymous"] ∧
    ("anonymous" : String) ≠ "" :=
  ⟨rfl, rfl, by decide⟩

/-- Claim C1 as amended: for every request that passes validation and whose
prompt build succeeds, if the provider call succeeds and the log write
succeeds, askFollowup returns success with the text of the first content
block and appends exactly one InteractionRecord carrying the request's
articleId, the question, responseLength equal to the character length of
that text, the server-assigned timestamp, and userId equal to the auth
uid when an auth context with a non-empty uid is present and the literal
"anonymous" otherwise (including when the uid is empty). -/
theorem askFollowup_success_record
    (provider : ProviderRequest → Except JsError ProviderResponse)
    (data : FollowupRequest) (auth : Option AuthInfo)
    (q s : String) (resp : ProviderResponse) (blk : ContentBlock) (rest : List ContentBlock)
    (hq : data.question = some q) (ht : ¬ (jsTrim q).isEmpty) (hlen : ¬ q.length > 500)
    (hb : buildUserPrompt data.articleContext q = .ok s)
    (hp : provider (providerRequestFor s) = .ok resp)
    (hc : resp.content = blk :: rest) :
    askFollowup provider true data auth =
      { result := .ok { success := true, response := blk.text }
        providerCalls := [providerRequestFor s]
        records := [{ articleId := data.articleId
                      question := q
                      responseLength := blk.text.length
                      timestamp := .serverAssigned
                      userId := resolveUserId auth }] } ∧
    (∀ a, auth = some a → ¬ a.uid.isEmpty → resolveUserId auth = a.uid) ∧
    (auth = none → resolveUserId auth = "anonymous") := by
  refine ⟨?_, ?_, ?_⟩
  · have h := askFollowup_main_path provider true data auth q s resp blk rest hq ht hlen hb hp hc
    simpa using h
  · rintro a rfl ha
    simp [resolveUserId, ha]
  · rintro rfl
    rfl

/-- Witness for the amended C1 at concrete inputs: the sample request with a
non-empty uid yields the success payload and exactly the expected record. -/
theorem askFollowup_success_record_witness :
    askFollowup answerProvider true sampleRequest (some { uid := "user-7" }) =
      { result := .ok { success := true, response := "Answer text" }
        providerCalls := [providerRequestFor samplePrompt]
        records := [{ articleId := some "article-1"
                      question := "What changed?"
                      responseLength := 11
                      timestamp := .serverAssigned
                      userId := "user-7" }] } ∧
    resolveUserId (some { uid := "user-7" }) = "user-7" :=
  have h := askFollowup_success_record answerProvider sampleRequest (some { uid := "user-7" })
    "What changed?" samplePrompt { content := [{ text := "Answer text" }] }
    { text := "Answer text" } [] rfl (by decide) (by decide) rfl rfl rfl
  ⟨h.1, h.2.1 { uid := "user-7" } rfl (by decide)⟩

/-- Claim C4: the user prompt is built deterministically: it interpolates
headline, source and summary, then the bullets rendered "- <text>" joined by
newlines in input order (for the two sample bullets the line for Production
up 12% comes before the line for New CEO appointed), the literal placeholder
"No bullet points available" when bullets are absent, then the verbatim
untrimmed question and the closing instruction sentence. -/
theorem userPrompt_composition :
    (∀ (h s su q : String) (bs : Option (List Bullet)),
      buildUserPrompt
          (some { headline := some h, source := some s, summary := some su, bullets := bs }) q =
        .ok ("Article Context:\nHeadline: " ++ h ++ "\nSource: " ++ s ++ "\nSummary: " ++ su ++
             "\nKey Points:\n" ++ bulletsSection bs ++ "\n\nUser Question: " ++ q ++
             closingSentence)) ∧
    bulletsSection (some [{ text := "Production up 12%" }, { text := "New CEO appointed" }]) =
      "- Production up 12%\n- New CEO appointed" ∧
    bulletsSection none = "No bullet points available" ∧
    (∃ p m t, buildUserPrompt (some sampleContext) "What changed?" =
      .ok (p ++ "- Production up 12%" ++ m ++ "- New CEO appointed" ++ t)) := by
  refine ⟨?_, rfl, rfl, ?_⟩
  · intro h s su q bs
    rfl
  · exact ⟨"Article Context:\nHeadline: Mine expansion approved\nSource: Reuters\nSummary: Production set to rise.\nKey Points:\n",
      "\n", "\n\nUser Question: What changed?" ++ closingSentence, by rfl⟩

/-- Counterexample for C5: a request that passes validation but has no
articleContext never reaches the provider: no provider call is made at all
(and the handler fails with the internal error), so it is not the case that
every validation-passing request leads to a provider invocation. -/
theorem provider_invocation_cex :
    ¬ (jsTrim "Why?").isEmpty ∧ "Why?".length ≤ 500 ∧
    (askFollowup answerProvider true
        { articleId := none, question := some "Why?", articleContext := none }
        none).providerCalls = [] ∧
    (askFollowup answerProvider true
        { articleId := none, question := some "Why?", articleContext := none }
        none).result = .error internalError :=
  ⟨by decide, by decide, rfl, rfl⟩

/-- Claim C5 as amended: for every request that passes validation and whose
prompt build succeeds, the provider is invoked exactly once, with the fixed
model identifier, a 1024 output token budget, the fixed system prompt and a
single user-role message carrying the composed prompt; and when the provider
response has a first content block and the log write succeeds, the returned
answer is that block's text field. -/
theorem provider_invocation
    (provider : ProviderRequest → Except JsError ProviderResponse)
    (logWriteOk : Bool) (data : FollowupRequest) (auth : Option AuthInfo) (q s : String)
    (hq : data.question = some q) (ht : ¬ (jsTrim q).isEmpty) (hlen : ¬ q.length > 500)
    (hb : buildUserPrompt data.articleContext q = .ok s) :
    (askFollowup provider logWriteOk data auth).providerCalls =
      [{ model := "claude-sonnet-4-20250514"
         maxTokens := 1024
         messages := [{ role := "user", content := s }]
         system := systemPrompt }] ∧
    (∀ resp blk rest, provider (providerRequestFor s) = .ok resp → resp.content = blk :: rest →
      logWriteOk = true →
      (askFollowup provider logWriteOk data auth).result =
        .ok { success := true, response := blk.text }) := by
  constructor
  · exact askFollowup_providerCalls provider logWriteOk data auth q s hq ht hlen hb
  · rintro resp blk rest hp hc rfl
    have h := askFollowup_main_path provider true data auth q s resp blk rest hq ht hlen hb hp hc
    simp only [if_true] at h
    rw [h]

/-- Witness for the amended C5 at concrete inputs. -/
theorem provider_invocation_witness :
    (askFollowup answerProvider true sampleRequest none).providerCalls =
      [{ model := "claude-sonnet-4-20250514"
         maxTokens := 1024
         messages := [{ role := "user", content := samplePrompt }]
         system := systemPrompt }] ∧
    (askFollowup answerProvider true sampleRequest none).result =
      .ok { success := true, response := "Answer text" } :=
  have h := provider_invocation answerProvider true sampleRequest none "What changed?"
    samplePrompt rfl (by decide) (by decide) rfl
  ⟨h.1, h.2 { content := [{ text := "Answer text" }] } { text := "Answer text" } []
    rfl rfl rfl⟩

/-- Counterexample for C6: on a valid request with provider content
consisting of the single block "Answer text", the handler does return
success with that text, but the single record written has responseLength 11
(the character length of "Answer text"), not 12 as claimed. -/
theorem answer_text_length_cex :
    (askFollowup answerProvider true sampleRequest none).result =
      .ok { success := true, response := "Answer text" } ∧
    (askFollowup answerProvider true sampleRequest none).records.map
        (fun r => r.responseLength) = [11] ∧
    ("Answer text".length = 11) ∧ (11 : Nat) ≠ 12 :=
  ⟨rfl, rfl, rfl, by decide⟩

/-- Claim C6 as amended: for every request that passes validation and whose
prompt build succeeds, if the provider responds with content
[{text: "Answer text"}] and the log write succeeds, askFollowup returns
{success: true, response: "Answer text"} and writes exactly one
InteractionRecord with responseLength = 11. -/
theorem answer_text_record
    (provider : ProviderRequest → Except JsError ProviderResponse)
    (data : FollowupRequest) (auth : Option AuthInfo) (q s : String)
    (hq : data.question = some q) (ht : ¬ (jsTrim q).isEmpty) (hlen : ¬ q.length > 500)
    (hb : buildUserPrompt data.articleContext q = .ok s)
    (hp : provider (providerRequestFor s) = .ok { content := [{ text := "Answer text" }] }) :
    (askFollowup provider true data auth).result =
      .ok { success := true, response := "Answer text" } ∧
    (askFollowup provider true data auth).records.map (fun r => r.responseLength) = [11] ∧
    (askFollowup provider true data auth).records.length = 1 := by
  have h := askFollowup_main_path provider true data auth q s
    { content := [{ text := "Answer text" }] } { text := "Answer text" } []
    hq ht hlen hb hp rfl
  simp only [if_true] at h
  rw [h]
  exact ⟨rfl, rfl, rfl⟩

/-- Witness for the amended C6 at concrete inputs. -/
theorem answer_text_record_witness :
    (askFollowup answerProvider true sampleRequest none).result =
      .ok { success := true, response := "Answer text" } ∧
    (askFollowup answerProvider true sampleRequest none).records.map
        (fun r => r.responseLength) = [11] ∧
    (askFollowup answerProvider true sampleRequest none).records.length = 1 :=
  answer_text_record answerProvider sampleRequest none "What changed?" samplePrompt
    rfl (by decide) (by decide) rfl rfl

/-- Counterexample for C8: a request that passes question validation but has
no articleContext does not degrade gracefully: the prompt build reads a
field of undefined and throws, so the handler signals the INTERNAL error and
never calls the provider. -/
theorem graceful_degradation_cex :
    ¬ (jsTrim "What changed?").isEmpty ∧ "What changed?".length ≤ 500 ∧
    buildUserPrompt none "What changed?" = .error JsError.typeError ∧
    (askFollowup answerProvider true
        { articleId := some "article-1", question := some "What changed?",
          articleContext := none } none).result = .error internalError :=
  ⟨by decide, by decide, rfl, rfl⟩

/-- Claim C8 as amended: for every request that passes question validation
and whose articleContext is present, prompt composition never fails: absent
nested fields degrade to interpolated placeholder text (absent bullets to
the literal "No bullet points available", absent headline, source or summary
to the text "undefined") and the handler proceeds to the provider call; when
articleContext itself is absent, the prompt build fails and the handler
signals the INTERNAL error instead. -/
theorem prompt_degrades_gracefully
    (provider : ProviderRequest → Except JsError ProviderResponse)
    (logWriteOk : Bool) (data : FollowupRequest) (auth : Option AuthInfo)
    (q : String) (c : ArticleContext)
    (hq : data.question = some q) (ht : ¬ (jsTrim q).isEmpty) (hlen : ¬ q.length > 500)
    (hc : data.articleContext = some c) :
    (∃ s, buildUserPrompt data.articleContext q = .ok s ∧
      (askFollowup provider logWriteOk data auth).providerCalls = [providerRequestFor s]) ∧
    (c.bullets = none → bulletsSection c.bullets = "No bullet points available") ∧
    (c.headline = none → jsToString c.headline = "undefined") := by
  refine ⟨?_, ?_, ?_⟩
  · refine ⟨"Article Context:\nHeadline: " ++ jsToString c.headline ++
        "\nSource: " ++ jsToString c.source ++ "\nSummary: " ++ jsToString c.summary ++
        "\nKey Points:\n" ++ bulletsSection c.bullets ++ "\n\nUser Question: " ++ q ++
        closingSentence, ?_, ?_⟩
    · rw [hc]; rfl
    · exact askFollowup_providerCalls provider logWriteOk data auth q _ hq ht hlen
        (by rw [hc]; rfl)
  · rintro hb; rw [hb]; rfl
  · rintro hh; rw [hh]; rfl

/-- Witness for the amended C8 at concrete inputs: an articleContext with
every field absent still yields a prompt and a provider call. -/
theorem prompt_degrades_gracefully_witness :
    buildUserPrompt emptyCtxRequest.articleContext "Why?" = .ok emptyCtxPrompt ∧
    (askFollowup answerProvider true emptyCtxRequest none).providerCalls =
      [providerRequestFor emptyCtxPrompt] ∧
    bulletsSection emptyContext.bullets = "No bullet points available" ∧
    jsToString emptyContext.headline = "undefined" := by
  have h := prompt_degrades_gracefully answerProvider true emptyCtxRequest none "Why?"
    emptyContext rfl (by decide) (by decide) rfl
  obtain ⟨⟨s, hs, hcalls⟩, hb, hh⟩ := h
  have hs' : buildUserPrompt emptyCtxRequest.articleContext "Why?" = .ok emptyCtxPrompt := rfl
  obtain rfl : s = emptyCtxPrompt := Except.ok.inj (hs.symm.trans hs')
  exact ⟨hs', hcalls, hb rfl, hh rfl⟩

/-- Claim C9: the log write is awaited before the response is returned: on a
run whose provider call succeeded with a first content block, if the log
write succeeds the caller gets the success payload and exactly the one
record is persisted, and if the log write fails the caller gets the generic
INTERNAL error, no response text, and no record. -/
theorem log_write_awaited
    (provider : ProviderRequest → Except JsError ProviderResponse)
    (logWriteOk : Bool) (data : FollowupRequest) (auth : Option AuthInfo)
    (q s : String) (resp : ProviderResponse) (blk : ContentBlock) (rest : List ContentBlock)
    (hq : data.question = some q) (ht : ¬ (jsTrim q).isEmpty) (hlen : ¬ q.length > 500)
    (hb : buildUserPrompt data.articleContext q = .ok s)
    (hp : provider (providerRequestFor s) = .ok resp)
    (hc : resp.content = blk :: rest) :
    (logWriteOk = true →
      (askFollowup provider logWriteOk data auth).result =
        .ok { success := true, response := blk.text } ∧
      (askFollowup provider logWriteOk data auth).records.length = 1) ∧
    (logWriteOk = false →
      (askFollowup provider logWriteOk data auth).result = .error internalError ∧
      (askFollowup provider logWriteOk data auth).records = []) := by
  have h := askFollowup_main_path provider logWriteOk data auth q s resp blk rest
    hq ht hlen hb hp hc
  constructor
  · rintro rfl
    simp only [if_true] at h
    rw [h]
    exact ⟨rfl, rfl⟩
  · rintro rfl
    simp only [Bool.false_eq_true, if_false] at h
    rw [h]
    exact ⟨rfl, rfl⟩

/-- Witness for C9 at concrete inputs: with a failing log write the model
call succeeds but the caller still receives the internal error. -/
theorem log_write_awaited_witness :
    (askFollowup answerProvider false sampleRequest none).result = .error internalError ∧
    (askFollowup answerProvider false sampleRequest none).records = [] :=
  (log_write_awaited answerProvider false sampleRequest none "What changed?" samplePrompt
    { content := [{ text := "Answer text" }] } { text := "Answer text" } []
    rfl (by decide) (by decide) rfl rfl rfl).2 rfl

/-- Helper: the rendering produced by toISOString for in-range calendar
components is accepted by the ISO-8601 recogniser. -/
theorem isISO8601_toISOString (y mo dd hh mi se ms : Nat)
    (_hy : y ≤ 9999) (hmo1 : 1 ≤ mo) (hmo2 : mo ≤ 12) (hd1 : 1 ≤ dd) (hd2 : dd ≤ 31)
    (hh2 : hh ≤ 23) (hmi : mi ≤ 59) (hse : se ≤ 59) (_hms : ms ≤ 999) :
    isISO8601 (toISOString ⟨y, mo, dd, hh, mi, se, ms⟩) = true := by
  have hdig : ∀ n : Nat, n < 10 → (Nat.digitChar n).isDigit = true := by decide
  have hp2 : ∀ n : Nat, n < 100 → charsToNat (pad2chars n) = n := by decide
  have e2 : ∀ n : Nat, [(n / 10 % 10).digitChar, (n % 10).digitChar] = pad2chars n :=
    fun _ => rfl
  simp only [toISOString, pad4chars, pad3chars, pad2chars, List.cons_append, List.nil_append]
  simp only [isISO8601, String.toList]
  rw [e2 mo, e2 dd, e2 hh, e2 mi, e2 se]
  rw [hp2 mo (by omega), hp2 dd (by omega), hp2 hh (by omega), hp2 mi (by omega),
    hp2 se (by omega)]
  simp only [pad2chars, List.all_cons, List.all_nil, Bool.and_true, Bool.and_eq_true,
    beq_self_eq_true, true_and, and_true, decide_eq_true_eq]
  refine ⟨⟨⟨⟨⟨⟨⟨?_, hmo1⟩, hmo2⟩, hd1⟩, hd2⟩, hh2⟩, hmi⟩, hse⟩
  refine ⟨?_, ?_, ?_, ?_, ?_, ?_, ?_, ?_, ?_, ?_, ?_, ?_, ?_, ?_, ?_, ?_, ?_⟩
  all_goals exact hdig _ (Nat.mod_lt _ (by omega))

/-- Claim C10: for every invocation, whatever the inbound request and the
clock value (any in-range calendar time), healthCheck returns the payload
with status exactly "ok" and a timestamp that is a valid ISO-8601 date-time
string; the handler is a total function, so it never fails. -/
theorem healthCheck_always_ok {α : Type} (req : α) (d : JsDate)
    (hy : d.year ≤ 9999) (hmo1 : 1 ≤ d.month) (hmo2 : d.month ≤ 12)
    (hd1 : 1 ≤ d.day) (hd2 : d.day ≤ 31) (hh : d.hour ≤ 23)
    (hmi : d.minute ≤ 59) (hse : d.second ≤ 59) (hms : d.millisecond ≤ 999) :
    (healthCheck req d).status = "ok" ∧ isISO8601 (healthCheck req d).timestamp = true :=
  ⟨rfl, isISO8601_toISOString d.year d.month d.day d.hour d.minute d.second d.millisecond
    hy hmo1 hmo2 hd1 hd2 hh hmi hse hms⟩

/-- Witness for C10 at a concrete request and clock value. -/
theorem healthCheck_always_ok_witness :
    (healthCheck "ping" ⟨2026, 10, 11, 12, 34, 56, 789⟩).status = "ok" ∧
    isISO8601 (healthCheck "ping" ⟨2026, 10, 11, 12, 34, 56, 789⟩).timestamp = true :=
  healthCheck_always_ok "ping" ⟨2026, 10, 11, 12, 34, 56, 789⟩
    (by decide) (by decide) (by decide) (by decide) (by decide) (by decide)
    (by decide) (by decide) (by decide)

end Chole
